import Mathlib

/-!
# BoundarySafe: verification of the boundary-aware containment algorithm

Shallow embedding of `src/boundarysafe.py`.  The geometry/projection library
(shapely / geopandas / pyproj) is an external collaborator: a polygon is
modelled by its identifier together with the three queries the code makes of
it (boundary-inclusive `covers`, boundary-exclusive `contains`, and distance
from a point to the polygon's boundary); a layer's GeoDataFrame is modelled
by its CRS tag, the presence of the identifier column, its polygon table and
its bounding-box spatial index.  Coordinates are real numbers; probabilities,
thresholds and reported distances are rationals (exact models of the Python
floats).  A numpy `Generator` is modelled as a stream of uniform-[0,1) draws
together with a cursor; `np.random.default_rng seed` is an unspecified
function from seeds to streams, passed in explicitly as `numpy`.
Python exceptions are modelled by `Except String`.
-/

namespace BoundarySafe

/-- A query point in EPSG:2163 planar metre coordinates. -/
abbrev Pt := ℝ × ℝ

/-- One polygon row of a layer's GeoDataFrame, abstracted to the queries
`exact_lookup` makes of it: its identifier, the boundary-inclusive and
boundary-exclusive point-in-polygon tests, and distance to its boundary. -/
structure Poly (L : Type) where
  label : L
  covers : Pt → Bool
  contains : Pt → Bool
  distToBoundary : Pt → ℚ

/-- A layer's polygon collection (one GeoDataFrame): its CRS (EPSG code, or
`none` when unset), whether the layer's identifier column is present, the
polygon rows, and the bounding-box spatial index (candidate row indices for
a query point's envelope). -/
structure GeoLayer (L : Type) where
  crs : Option ℤ
  hasIdCol : Bool
  polys : List (Poly L)
  sindex : Pt → List ℕ

/-- The supported layer names (`exact_lookup`'s `id_col` table keys). -/
inductive Layer where
  | county | zcta | tract

/-- The dictionary of GeoDataFrames passed to every lookup. -/
abbrev GdfDict (L : Type) := Layer → GeoLayer L

/-- The result record of `boundarysafe_lookup` (the returned Python dict). -/
structure Outcome (L : Type) where
  label_id : Option L
  confidence : ℚ
  dist_to_boundary_m : Option ℚ
  status : String
  candidates : List (L × ℚ)
deriving DecidableEq

/-- A numpy random generator: the underlying stream of uniform-[0,1) draws
and the position of the next draw. -/
structure Rng where
  stream : ℕ → ℝ
  pos : ℕ

/-- One `rng.uniform(low, high, n)` call: `n` draws `low + (high-low)*u`,
advancing the cursor by `n`. -/
def Rng.uniform (rng : Rng) (low high : ℝ) (n : ℕ) : List ℝ × Rng :=
  ((List.range n).map fun i => low + (high - low) * rng.stream (rng.pos + i),
   ⟨rng.stream, rng.pos + n⟩)

/-- Fresh generator from `np.random.default_rng seed`, given the ambient
seed-to-stream function of the numpy library. -/
def default_rng (numpy : ℕ → ℕ → ℝ) (seed : ℕ) : Rng :=
  ⟨numpy seed, 0⟩

/-- Python `round(q, ndigits)` needs round-half-to-even on the scaled value. -/
def roundHalfEven (q : ℚ) : ℤ :=
  let f := ⌊q⌋
  let r := q - f
  if r < 1 / 2 then f
  else if 1 / 2 < r then f + 1
  else if f % 2 = 0 then f else f + 1

/-- Python `round(q, ndigits)` for nonnegative digit counts. -/
def pyRound (q : ℚ) (ndigits : ℕ) : ℚ :=
  (roundHalfEven (q * 10 ^ ndigits) : ℚ) / 10 ^ ndigits

/-- The `_check_crs` helper: reject a GeoDataFrame with no CRS or a CRS
other than EPSG:2163 (a raised `ValueError` is modelled as `Except.error`). -/
def _check_crs {L : Type} (gdf : GeoLayer L) : Except String Unit :=
  match gdf.crs with
  | none => .error "no CRS"
  | some epsg => if epsg = 2163 then .ok () else .error "wrong CRS"

/-- Body of `exact_lookup` after the identifier-column check: spatial-index
candidates, `covers` filter, `contains` fallback, first match wins. -/
def exact_lookup_pure {L : Type} (point : Pt) (gdf : GeoLayer L) :
    Option L × Option ℚ :=
  let possible_idx := gdf.sindex point
  if possible_idx.isEmpty then (none, none)
  else
    let possible := possible_idx.filterMap fun i => gdf.polys.get? i
    let covers_matches := possible.filter fun poly => poly.covers point
    let matchList :=
      if covers_matches.isEmpty then possible.filter fun poly => poly.contains point
      else covers_matches
    match matchList with
    | [] => (none, none)
    | m :: _ => (some m.label, some (m.distToBoundary point))

/-- `exact_lookup(x_m, y_m, layer, gdf_dict)`: raises when the layer's
identifier column is missing, otherwise runs the pure body. -/
def exact_lookup {L : Type} (x_m y_m : ℝ) (layer : Layer) (gdf_dict : GdfDict L) :
    Except String (Option L × Option ℚ) :=
  let gdf := gdf_dict layer
  if gdf.hasIdCol = false then .error "id column not found"
  else .ok (exact_lookup_pure (x_m, y_m) gdf)

/-- `sample_disk(x_m, y_m, radius_m, n, rng)`: `n` angles uniform on
[0, 2*pi), `n` radii `radius_m * sqrt u` for `u` uniform on [0, 1), points
`(x + r cos theta, y + r sin theta)`. -/
noncomputable def sample_disk (x_m y_m radius_m : ℝ) (n : ℕ) (rng : Rng) :
    List Pt × Rng :=
  let t := rng.uniform 0 (2 * Real.pi) n
  let u := t.2.uniform 0 1 n
  let rs := u.1.map fun v => radius_m * Real.sqrt v
  ((rs.zip t.1).map fun rt =>
    (x_m + rt.1 * Real.cos rt.2, y_m + rt.1 * Real.sin rt.2), u.2)

/-- One `Counter` update `counts[label] += 1`: Python dicts are insertion
ordered, so an existing key keeps its position and a new key is appended. -/
def counterAdd {L : Type} [DecidableEq L] : List (L × ℕ) → L → List (L × ℕ)
  | [], l => [(l, 1)]
  | (k, n) :: rest, l =>
      if k = l then (k, n + 1) :: rest else (k, n) :: counterAdd rest l

/-- One iteration of the sampling loop of `boundarysafe_lookup`: resolve a
sample and tally its label when non-absent (a raised exception propagates). -/
def tallyStepM {L : Type} [DecidableEq L] (layer : Layer) (gdf_dict : GdfDict L)
    (counts : List (L × ℕ)) (pt : Pt) : Except String (List (L × ℕ)) := do
  let r ← exact_lookup pt.1 pt.2 layer gdf_dict
  pure (match r.1 with
        | some label_s => counterAdd counts label_s
        | none => counts)

/-- The sampling loop of `boundarysafe_lookup`. -/
def tallyFold {L : Type} [DecidableEq L] (layer : Layer) (gdf_dict : GdfDict L)
    (pts : List Pt) : Except String (List (L × ℕ)) :=
  pts.foldlM (tallyStepM layer gdf_dict) []

/-- `sum(counts.values())`. -/
def sumCounts {L : Type} (counts : List (L × ℕ)) : ℕ :=
  (counts.map Prod.snd).sum

/-- Stable descending insertion used by `most_common`: an element goes in
front of the first strictly smaller count, behind equal counts. -/
def insertDesc {L : Type} (x : L × ℕ) : List (L × ℕ) → List (L × ℕ)
  | [] => [x]
  | y :: ys => if y.2 ≤ x.2 then x :: y :: ys else y :: insertDesc x ys

/-- `Counter.most_common()`: the tally sorted by count descending, ties kept
in insertion (first-seen) order, as CPython's stable `sorted`/`nlargest`. -/
def most_common {L : Type} (counts : List (L × ℕ)) : List (L × ℕ) :=
  counts.foldr insertDesc []

/-- `boundarysafe_lookup`: CRS check, exact stage, Monte Carlo stage,
aggregation, decision.  `numpy` is the ambient seed-to-stream function used
when `rng` is omitted. -/
noncomputable def boundarysafe_lookup {L : Type} [DecidableEq L]
    (numpy : ℕ → ℕ → ℝ) (x_m y_m : ℝ) (layer : Layer) (gdf_dict : GdfDict L)
    (gps_radius_m : ℝ) (n_samples : ℕ) (p_thresh : ℚ) (rng? : Option Rng) :
    Except String (Outcome L) := do
  let rng := match rng? with
    | none => default_rng numpy 42
    | some r => r
  _check_crs (gdf_dict layer)
  let res ← exact_lookup x_m y_m layer gdf_dict
  match res with
  | (none, _) =>
      pure { label_id := none, confidence := 0, dist_to_boundary_m := none,
             status := "error", candidates := [] }
  | (some label_orig, dist_orig) =>
      let samples := (sample_disk x_m y_m gps_radius_m n_samples rng).1
      let counts ← tallyFold layer gdf_dict samples
      if counts.isEmpty then
        pure { label_id := some label_orig, confidence := 1,
               dist_to_boundary_m := dist_orig, status := "answer",
               candidates := [(label_orig, 1)] }
      else
        let total := sumCounts counts
        match most_common counts with
        | [] => .error "IndexError"
        | (top_label, top_count) :: _ =>
            let p_top : ℚ := (top_count : ℚ) / (total : ℚ)
            let candidates := ((most_common counts).take 2).map
              fun lc => (lc.1, (lc.2 : ℚ) / (total : ℚ))
            if p_thresh ≤ p_top then
              pure { label_id := some top_label, confidence := pyRound p_top 4,
                     dist_to_boundary_m := dist_orig.map fun d => pyRound d 2,
                     status := "answer", candidates := candidates }
            else
              pure { label_id := some top_label, confidence := pyRound p_top 4,
                     dist_to_boundary_m := dist_orig.map fun d => pyRound d 2,
                     status := "abstain", candidates := candidates }

/-! ## Derived descriptions used in theorem statements -/

/-- Exception-free image of one sampling-loop iteration. -/
def tallyStep {L : Type} [DecidableEq L] (layer : Layer) (gdf_dict : GdfDict L)
    (counts : List (L × ℕ)) (pt : Pt) : List (L × ℕ) :=
  match (exact_lookup_pure pt (gdf_dict layer)).1 with
  | some label_s => counterAdd counts label_s
  | none => counts

/-- Exception-free image of the sampling loop (valid once the identifier
column is known to be present). -/
def tallyPure {L : Type} [DecidableEq L] (layer : Layer) (gdf_dict : GdfDict L)
    (pts : List Pt) : List (L × ℕ) :=
  pts.foldl (tallyStep layer gdf_dict) []

/-- The sequence of non-absent labels produced by resolving a point list,
in sample order. -/
def labelsOf {L : Type} (layer : Layer) (gdf_dict : GdfDict L)
    (pts : List Pt) : List L :=
  pts.filterMap fun pt => (exact_lookup_pure pt (gdf_dict layer)).1

/-- Tally built directly from a label sequence. -/
def counterFold {L : Type} [DecidableEq L] (ls : List L) : List (L × ℕ) :=
  ls.foldl counterAdd []

/-- The largest count appearing in a tally. -/
def maxCount {L : Type} (counts : List (L × ℕ)) : ℕ :=
  (counts.map Prod.snd).foldr max 0

/-- Count recorded for a label: value at the first entry carrying the key. -/
def countVal {L : Type} [DecidableEq L] : List (L × ℕ) → L → ℕ
  | [], _ => 0
  | (k, n) :: rest, l => if k = l then n else countVal rest l

/-- Distinct elements of a sequence, in order of first appearance. -/
def firstSeen {L : Type} [DecidableEq L] (ls : List L) : List L :=
  ls.foldl (fun ks l => if l ∈ ks then ks else ks ++ [l]) []

/-- Euclidean planar distance between two points. -/
noncomputable def euclidDist (p q : Pt) : ℝ :=
  Real.sqrt ((p.1 - q.1) ^ 2 + (p.2 - q.2) ^ 2)

/-! ## Helper lemmas: Except plumbing -/

lemma except_bind_ok {α β : Type} (a : α) (f : α → Except String β) :
    (Except.ok a >>= f) = f a := rfl

lemma except_pure_eq {α : Type} (a : α) : (pure a : Except String α) = .ok a := rfl

/-! ## Helper lemmas: tally structure -/

section TallyLemmas

variable {L : Type} [DecidableEq L]

lemma sumCounts_counterAdd (c : List (L × ℕ)) (l : L) :
    sumCounts (counterAdd c l) = sumCounts c + 1 := by
  induction c with
  | nil => simp [counterAdd, sumCounts]
  | cons p rest ih =>
      obtain ⟨k, n⟩ := p
      by_cases h : k = l
      · simp [counterAdd, h, sumCounts]
        omega
      · simp only [counterAdd, if_neg h]
        simp [sumCounts] at ih ⊢
        omega

lemma countVal_counterAdd_same (c : List (L × ℕ)) (l : L) :
    countVal (counterAdd c l) l = countVal c l + 1 := by
  induction c with
  | nil => simp [counterAdd, countVal]
  | cons p rest ih =>
      obtain ⟨k, n⟩ := p
      by_cases h : k = l
      · simp [counterAdd, countVal, h]
      · simp [counterAdd, countVal, h, ih]

lemma countVal_counterAdd_other (c : List (L × ℕ)) (l l' : L) (hne : l ≠ l') :
    countVal (counterAdd c l) l' = countVal c l' := by
  induction c with
  | nil => simp [counterAdd, countVal, hne]
  | cons p rest ih =>
      obtain ⟨k, n⟩ := p
      by_cases h : k = l
      · subst h
        simp [counterAdd, countVal, hne]
      · simp [counterAdd, countVal, h, ih]

lemma keys_counterAdd (c : List (L × ℕ)) (l : L) :
    (counterAdd c l).map Prod.fst =
      if l ∈ c.map Prod.fst then c.map Prod.fst else c.map Prod.fst ++ [l] := by
  induction c with
  | nil => simp [counterAdd]
  | cons p rest ih =>
      obtain ⟨k, n⟩ := p
      by_cases h : k = l
      · subst h
        simp [counterAdd]
      · have hne : ¬l = k := fun hl => h hl.symm
        simp only [counterAdd, if_neg h, List.map_cons, List.mem_cons]
        rw [ih]
        by_cases hmem : l ∈ rest.map Prod.fst
        · simp [hmem, hne]
        · simp [hmem, hne]

lemma keys_nodup_counterAdd (c : List (L × ℕ)) (l : L)
    (h : (c.map Prod.fst).Nodup) : ((counterAdd c l).map Prod.fst).Nodup := by
  rw [keys_counterAdd]
  by_cases hmem : l ∈ c.map Prod.fst
  · simpa [hmem]
  · simp only [if_neg hmem]
    refine List.Nodup.append h (List.nodup_singleton l) ?_
    intro a ha hb
    rw [List.mem_singleton] at hb
    subst hb
    exact hmem ha

lemma countVal_foldl (ls : List L) (acc : List (L × ℕ)) (l : L) :
    countVal (ls.foldl counterAdd acc) l = countVal acc l + ls.count l := by
  induction ls generalizing acc with
  | nil => simp
  | cons a ls ih =>
      rw [List.foldl_cons, ih]
      by_cases h : a = l
      · subst h
        rw [countVal_counterAdd_same]
        simp [List.count_cons]
        omega
      · rw [countVal_counterAdd_other _ _ _ h]
        simp [List.count_cons, h]

lemma countVal_counterFold (ls : List L) (l : L) :
    countVal (counterFold ls) l = ls.count l := by
  simpa [counterFold, countVal] using countVal_foldl ls [] l

lemma sumCounts_foldl (ls : List L) (acc : List (L × ℕ)) :
    sumCounts (ls.foldl counterAdd acc) = sumCounts acc + ls.length := by
  induction ls generalizing acc with
  | nil => simp
  | cons a ls ih =>
      rw [List.foldl_cons, ih, sumCounts_counterAdd, List.length_cons]
      omega

lemma sumCounts_counterFold (ls : List L) :
    sumCounts (counterFold ls) = ls.length := by
  simpa [counterFold, sumCounts] using sumCounts_foldl ls []

lemma keys_nodup_foldl (ls : List L) (acc : List (L × ℕ))
    (h : (acc.map Prod.fst).Nodup) :
    ((ls.foldl counterAdd acc).map Prod.fst).Nodup := by
  induction ls generalizing acc with
  | nil => simpa
  | cons a ls ih => exact ih _ (keys_nodup_counterAdd _ _ h)

lemma keys_nodup_counterFold (ls : List L) :
    ((counterFold ls).map Prod.fst).Nodup := by
  simpa [counterFold] using keys_nodup_foldl ls [] (by simp)

lemma keys_foldl_firstSeen (ls : List L) (acc : List (L × ℕ)) :
    (ls.foldl counterAdd acc).map Prod.fst =
      ls.foldl (fun ks l => if l ∈ ks then ks else ks ++ [l]) (acc.map Prod.fst) := by
  induction ls generalizing acc with
  | nil => simp
  | cons a ls ih => rw [List.foldl_cons, ih, keys_counterAdd, List.foldl_cons]

lemma keys_counterFold (ls : List L) :
    (counterFold ls).map Prod.fst = firstSeen ls := by
  simpa [counterFold, firstSeen] using keys_foldl_firstSeen ls []

lemma mem_countVal (c : List (L × ℕ)) (k : L) (n : ℕ)
    (hmem : (k, n) ∈ c) (hnd : (c.map Prod.fst).Nodup) : countVal c k = n := by
  induction c with
  | nil => simp at hmem
  | cons p rest ih =>
      obtain ⟨k', n'⟩ := p
      simp only [List.map_cons, List.nodup_cons] at hnd
      rcases List.mem_cons.mp hmem with heq | hmem'
      · rw [Prod.mk.injEq] at heq
        obtain ⟨h1, h2⟩ := heq
        subst h1
        subst h2
        simp [countVal]
      · have hkne : k' ≠ k := by
          rintro rfl
          exact hnd.1 (List.mem_map.mpr ⟨(k', n), hmem', rfl⟩)
        simp only [countVal, if_neg hkne]
        exact ih hmem' hnd.2

end TallyLemmas

/-! ## Helper lemmas: most_common -/

section MostCommonLemmas

variable {L : Type}

lemma maxCount_cons (x : L × ℕ) (c : List (L × ℕ)) :
    maxCount (x :: c) = max x.2 (maxCount c) := rfl

lemma mostCommon_cons (x : L × ℕ) (c : List (L × ℕ)) :
    most_common (x :: c) = insertDesc x (most_common c) := rfl

lemma insertDesc_ne_nil (x : L × ℕ) (l : List (L × ℕ)) : insertDesc x l ≠ [] := by
  cases l with
  | nil => simp [insertDesc]
  | cons y ys =>
      by_cases h : y.2 ≤ x.2 <;> simp [insertDesc, h]

lemma mostCommon_eq_nil_iff (c : List (L × ℕ)) : most_common c = [] ↔ c = [] := by
  cases c with
  | nil => simp [most_common]
  | cons x c' =>
      simp only [mostCommon_cons]
      exact ⟨fun h => absurd h (insertDesc_ne_nil _ _), fun h => by simp at h⟩

/-- The head of `most_common` is the first tally entry (insertion order)
carrying the maximal count. -/
lemma mostCommon_head_firstMax (c : List (L × ℕ)) (hne : c ≠ []) :
    ∃ top rest, most_common c = top :: rest ∧ top.2 = maxCount c ∧
      c.find? (fun z => z.2 = maxCount c) = some top := by
  induction c with
  | nil => exact absurd rfl hne
  | cons x c ih =>
      cases c with
      | nil =>
          refine ⟨x, [], rfl, ?_, ?_⟩
          · simp [maxCount]
          · simp [maxCount, List.find?]
      | cons y c' =>
          obtain ⟨top, rest, h1, h2, h3⟩ := ih (by simp)
          rw [mostCommon_cons, h1]
          by_cases hle : top.2 ≤ x.2
          · have hmax : maxCount (x :: y :: c') = x.2 := by
              rw [maxCount_cons, ← h2]
              exact Nat.max_eq_left hle
            refine ⟨x, top :: rest, ?_, ?_, ?_⟩
            · simp [insertDesc, hle]
            · rw [hmax]
            · rw [hmax]
              exact List.find?_cons_of_pos _ (by simp)
          · have hlt : x.2 < top.2 := Nat.lt_of_not_le hle
            have hmax : maxCount (x :: y :: c') = maxCount (y :: c') := by
              rw [maxCount_cons, ← h2]
              exact Nat.max_eq_right (Nat.le_of_lt hlt)
            refine ⟨top, insertDesc x rest, ?_, ?_, ?_⟩
            · simp only [insertDesc, if_neg hle]
            · rw [hmax]
              exact h2
            · rw [hmax]
              rw [List.find?_cons_of_neg _ (by simp; omega)]
              exact h3

end MostCommonLemmas

/-! ## Helper lemmas: the Except-free image of the loops -/

section ExceptBridge

variable {L : Type}

lemma exact_lookup_ok (x_m y_m : ℝ) (layer : Layer) (gdf_dict : GdfDict L)
    (hcol : (gdf_dict layer).hasIdCol = true) :
    exact_lookup x_m y_m layer gdf_dict =
      .ok (exact_lookup_pure (x_m, y_m) (gdf_dict layer)) := by
  simp [exact_lookup, hcol]

lemma tallyStepM_ok [DecidableEq L] (layer : Layer) (gdf_dict : GdfDict L)
    (counts : List (L × ℕ)) (pt : Pt)
    (hcol : (gdf_dict layer).hasIdCol = true) :
    tallyStepM layer gdf_dict counts pt = .ok (tallyStep layer gdf_dict counts pt) := by
  unfold tallyStepM tallyStep
  rw [exact_lookup_ok _ _ _ _ hcol, except_bind_ok]
  rfl

lemma tallyFold_go [DecidableEq L] (layer : Layer) (gdf_dict : GdfDict L)
    (hcol : (gdf_dict layer).hasIdCol = true) (pts : List Pt)
    (acc : List (L × ℕ)) :
    pts.foldlM (tallyStepM layer gdf_dict) acc =
      .ok (pts.foldl (tallyStep layer gdf_dict) acc) := by
  induction pts generalizing acc with
  | nil => rfl
  | cons pt pts ih =>
      rw [List.foldlM_cons, List.foldl_cons, tallyStepM_ok _ _ _ _ hcol,
        except_bind_ok, ih]

lemma tallyFold_eq [DecidableEq L] (layer : Layer) (gdf_dict : GdfDict L) (pts : List Pt)
    (hcol : (gdf_dict layer).hasIdCol = true) :
    tallyFold layer gdf_dict pts = .ok (tallyPure layer gdf_dict pts) :=
  tallyFold_go layer gdf_dict hcol pts []

end ExceptBridge

/-! ## Helper lemmas: the three result shapes of boundarysafe_lookup -/

section LookupBranches

variable {L : Type} [DecidableEq L]

omit [DecidableEq L] in
/-- `exact_lookup_pure` returns both fields absent or both present, the
present pair coming from the first matching polygon. -/
lemma exact_lookup_pure_cases (point : Pt) (gdf : GeoLayer L) :
    exact_lookup_pure point gdf = (none, none) ∨
      ∃ m : Poly L, exact_lookup_pure point gdf =
        (some m.label, some (m.distToBoundary point)) := by
  unfold exact_lookup_pure
  dsimp only
  split
  · exact Or.inl rfl
  · split
    · exact Or.inl rfl
    · exact Or.inr ⟨_, rfl⟩

lemma lookup_error_case (numpy : ℕ → ℕ → ℝ) (x_m y_m : ℝ) (layer : Layer)
    (gdf_dict : GdfDict L) (gps_radius_m : ℝ) (n_samples : ℕ) (p_thresh : ℚ)
    (rng? : Option Rng)
    (hcrs : _check_crs (gdf_dict layer) = .ok ())
    (hcol : (gdf_dict layer).hasIdCol = true)
    (horig : (exact_lookup_pure (x_m, y_m) (gdf_dict layer)).1 = none) :
    boundarysafe_lookup numpy x_m y_m layer gdf_dict gps_radius_m n_samples
        p_thresh rng? =
      .ok { label_id := none, confidence := 0, dist_to_boundary_m := none,
            status := "error", candidates := [] } := by
  unfold boundarysafe_lookup
  rw [hcrs]
  simp only [except_bind_ok]
  rw [exact_lookup_ok _ _ _ _ hcol]
  simp only [except_bind_ok]
  rcases exact_lookup_pure_cases (x_m, y_m) (gdf_dict layer) with h | ⟨m, h⟩
  · rw [h]
    rfl
  · rw [h] at horig
    simp at horig

lemma lookup_empty_case (numpy : ℕ → ℕ → ℝ) (x_m y_m : ℝ) (layer : Layer)
    (gdf_dict : GdfDict L) (gps_radius_m : ℝ) (n_samples : ℕ) (p_thresh : ℚ)
    (rng : Rng) (label_orig : L) (dist_orig : Option ℚ) (samples : List Pt)
    (hcrs : _check_crs (gdf_dict layer) = .ok ())
    (hcol : (gdf_dict layer).hasIdCol = true)
    (horig : exact_lookup_pure (x_m, y_m) (gdf_dict layer) =
      (some label_orig, dist_orig))
    (hs : samples = (sample_disk x_m y_m gps_radius_m n_samples rng).1)
    (hcnt : tallyPure layer gdf_dict samples = []) :
    boundarysafe_lookup numpy x_m y_m layer gdf_dict gps_radius_m n_samples
        p_thresh (some rng) =
      .ok { label_id := some label_orig, confidence := 1,
            dist_to_boundary_m := dist_orig, status := "answer",
            candidates := [(label_orig, 1)] } := by
  unfold boundarysafe_lookup
  rw [hcrs]
  simp only [except_bind_ok]
  rw [exact_lookup_ok _ _ _ _ hcol]
  simp only [except_bind_ok]
  rw [horig]
  dsimp only
  rw [tallyFold_eq _ _ _ hcol]
  simp only [except_bind_ok]
  rw [← hs, hcnt]
  rfl

lemma lookup_decision_case (numpy : ℕ → ℕ → ℝ) (x_m y_m : ℝ) (layer : Layer)
    (gdf_dict : GdfDict L) (gps_radius_m : ℝ) (n_samples : ℕ) (p_thresh : ℚ)
    (rng : Rng) (label_orig : L) (dist_orig : Option ℚ) (samples : List Pt)
    (top_label : L) (top_count : ℕ) (mc_rest : List (L × ℕ))
    (hcrs : _check_crs (gdf_dict layer) = .ok ())
    (hcol : (gdf_dict layer).hasIdCol = true)
    (horig : exact_lookup_pure (x_m, y_m) (gdf_dict layer) =
      (some label_orig, dist_orig))
    (hs : samples = (sample_disk x_m y_m gps_radius_m n_samples rng).1)
    (hmc : most_common (tallyPure layer gdf_dict samples) =
      (top_label, top_count) :: mc_rest) :
    boundarysafe_lookup numpy x_m y_m layer gdf_dict gps_radius_m n_samples
        p_thresh (some rng) =
      .ok { label_id := some top_label,
            confidence := pyRound ((top_count : ℚ) /
              (sumCounts (tallyPure layer gdf_dict samples) : ℚ)) 4,
            dist_to_boundary_m := dist_orig.map fun d => pyRound d 2,
            status :=
              if p_thresh ≤ (top_count : ℚ) /
                  (sumCounts (tallyPure layer gdf_dict samples) : ℚ)
              then "answer" else "abstain",
            candidates := ((most_common (tallyPure layer gdf_dict samples)).take 2).map
              fun lc => (lc.1, (lc.2 : ℚ) /
                (sumCounts (tallyPure layer gdf_dict samples) : ℚ)) } := by
  unfold boundarysafe_lookup
  rw [hcrs]
  simp only [except_bind_ok]
  rw [exact_lookup_ok _ _ _ _ hcol]
  simp only [except_bind_ok]
  rw [horig]
  dsimp only
  rw [tallyFold_eq _ _ _ hcol]
  simp only [except_bind_ok]
  rw [← hs]
  cases hc : tallyPure layer gdf_dict samples with
  | nil =>
      rw [hc] at hmc
      simp [most_common] at hmc
  | cons a as =>
      rw [hc] at hmc
      rw [List.isEmpty_cons, if_neg (by simp), hmc]
      dsimp only
      by_cases hp : p_thresh ≤ (top_count : ℚ) / (sumCounts (a :: as) : ℚ)
      · rw [if_pos hp, if_pos hp]
        rfl
      · rw [if_neg hp, if_neg hp]
        rfl

end LookupBranches

/-! ## Helper lemmas: the tally as a function of the label sequence -/

section TallySequence

variable {L : Type} [DecidableEq L]

lemma tally_foldl_labels (layer : Layer) (gdf_dict : GdfDict L) (pts : List Pt)
    (acc : List (L × ℕ)) :
    pts.foldl (tallyStep layer gdf_dict) acc =
      (labelsOf layer gdf_dict pts).foldl counterAdd acc := by
  induction pts generalizing acc with
  | nil => rfl
  | cons pt pts ih =>
      rw [List.foldl_cons]
      unfold labelsOf
      rw [List.filterMap_cons]
      cases h : (exact_lookup_pure pt (gdf_dict layer)).1 with
      | none =>
          unfold tallyStep
          rw [h]
          exact ih acc
      | some l =>
          unfold tallyStep
          rw [h, List.foldl_cons]
          exact ih (counterAdd acc l)

lemma tallyPure_eq_counterFold (layer : Layer) (gdf_dict : GdfDict L)
    (pts : List Pt) :
    tallyPure layer gdf_dict pts = counterFold (labelsOf layer gdf_dict pts) :=
  tally_foldl_labels layer gdf_dict pts []

omit [DecidableEq L] in
lemma labelsOf_length (layer : Layer) (gdf_dict : GdfDict L) (pts : List Pt) :
    (labelsOf layer gdf_dict pts).length =
      (pts.filter fun pt =>
        ((exact_lookup_pure pt (gdf_dict layer)).1).isSome).length := by
  induction pts with
  | nil => rfl
  | cons pt pts ih =>
      unfold labelsOf at ih ⊢
      rw [List.filterMap_cons, List.filter_cons]
      cases h : (exact_lookup_pure pt (gdf_dict layer)).1 with
      | none => simpa [h] using ih
      | some l => simpa [h] using ih

end TallySequence

/-! ## Concrete fixtures used by the witnesses and counterexamples -/

/-- A polygon matching every point, boundary distance one millimetre. -/
def constPoly : Poly ℕ :=
  { label := 10, covers := fun _ => true, contains := fun _ => true,
    distToBoundary := fun _ => 1 / 1000 }

/-- Well-configured single-polygon layer that resolves every point. -/
def constLayer : GeoLayer ℕ :=
  { crs := some 2163, hasIdCol := true, polys := [constPoly],
    sindex := fun _ => [0] }

/-- Dictionary serving `constLayer` for every layer name. -/
def constGdf : GdfDict ℕ := fun _ => constLayer

/-- Well-configured layer whose spatial index never returns candidates. -/
def emptyLayer : GeoLayer ℕ :=
  { crs := some 2163, hasIdCol := true, polys := [], sindex := fun _ => [] }

/-- Dictionary serving `emptyLayer` for every layer name. -/
def emptyGdf : GdfDict ℕ := fun _ => emptyLayer

/-- Generator whose stream is constantly 0. -/
noncomputable def zeroRng : Rng := ⟨fun _ => 0, 0⟩

/-- Generator whose stream is constantly 1/2. -/
noncomputable def halfRng : Rng := ⟨fun _ => 1 / 2, 0⟩

/-! ## Claim theorems -/

/-- C2: when the original point cannot be resolved, `boundarysafe_lookup`
returns a well-formed Outcome with status error, absent label and distance,
zero ("empty") confidence and an empty candidate list, and the Monte Carlo
stage is never run: the result is independent of the GPS radius, the sample
count, the threshold and the random generator. -/
theorem error_outcome_on_unresolved_origin {L : Type} [DecidableEq L]
    (numpy : ℕ → ℕ → ℝ) (x_m y_m : ℝ) (layer : Layer) (gdf_dict : GdfDict L)
    (r₁ r₂ : ℝ) (n₁ n₂ : ℕ) (p₁ p₂ : ℚ) (rng₁ rng₂ : Option Rng)
    (hcrs : _check_crs (gdf_dict layer) = .ok ())
    (hcol : (gdf_dict layer).hasIdCol = true)
    (horig : (exact_lookup_pure (x_m, y_m) (gdf_dict layer)).1 = none) :
    boundarysafe_lookup numpy x_m y_m layer gdf_dict r₁ n₁ p₁ rng₁ =
      .ok { label_id := none, confidence := 0, dist_to_boundary_m := none,
            status := "error", candidates := [] } ∧
    boundarysafe_lookup numpy x_m y_m layer gdf_dict r₁ n₁ p₁ rng₁ =
      boundarysafe_lookup numpy x_m y_m layer gdf_dict r₂ n₂ p₂ rng₂ := by
  constructor
  · exact lookup_error_case numpy x_m y_m layer gdf_dict r₁ n₁ p₁ rng₁
      hcrs hcol horig
  · rw [lookup_error_case numpy x_m y_m layer gdf_dict r₁ n₁ p₁ rng₁
      hcrs hcol horig,
      lookup_error_case numpy x_m y_m layer gdf_dict r₂ n₂ p₂ rng₂
      hcrs hcol horig]

/-- Witness for C2 at a concrete configuration with no coverage anywhere. -/
theorem error_outcome_on_unresolved_origin_witness :
    _check_crs (emptyGdf Layer.county) = .ok () ∧
    (emptyGdf Layer.county).hasIdCol = true ∧
    (exact_lookup_pure ((0 : ℝ), (0 : ℝ)) (emptyGdf Layer.county)).1 = none ∧
    boundarysafe_lookup (fun _ _ => 0) 0 0 Layer.county emptyGdf 20 100
        (9 / 10) none =
      .ok { label_id := none, confidence := 0, dist_to_boundary_m := none,
            status := "error", candidates := [] } :=
  ⟨rfl, rfl, rfl,
    (error_outcome_on_unresolved_origin (fun _ _ => 0) 0 0 Layer.county
      emptyGdf 20 20 100 100 (9 / 10) (9 / 10) none none rfl rfl rfl).1⟩

/-- C10: an omitted rng argument is replaced by a fresh generator seeded
with the fixed value 42, so a call with `rng` omitted equals the call with
`default_rng 42` passed explicitly, and two rng-omitted calls on identical
inputs return identical results. -/
theorem omitted_rng_uses_seed_42 {L : Type} [DecidableEq L]
    (numpy : ℕ → ℕ → ℝ) (x_m y_m : ℝ) (layer : Layer) (gdf_dict : GdfDict L)
    (gps_radius_m : ℝ) (n_samples : ℕ) (p_thresh : ℚ) :
    boundarysafe_lookup numpy x_m y_m layer gdf_dict gps_radius_m n_samples
        p_thresh none =
      boundarysafe_lookup numpy x_m y_m layer gdf_dict gps_radius_m n_samples
        p_thresh (some (default_rng numpy 42)) ∧
    boundarysafe_lookup numpy x_m y_m layer gdf_dict gps_radius_m n_samples
        p_thresh none =
      boundarysafe_lookup numpy x_m y_m layer gdf_dict gps_radius_m n_samples
        p_thresh none :=
  ⟨rfl, rfl⟩

/-- C1: with a resolved origin and a non-empty tally, `boundarysafe_lookup`
reports a most-frequent label as `label_id`; `p_top` is the fraction of
non-absent samples carrying that label (numerator its sample count,
denominator the number of non-absent samples); the status is `answer`
exactly when the unrounded `p_top` reaches `p_thresh` and `abstain`
otherwise, while the reported confidence is `p_top` rounded only for
reporting, so rounding never alters the decision. -/
theorem decision_stage_spec {L : Type} [DecidableEq L]
    (numpy : ℕ → ℕ → ℝ) (x_m y_m : ℝ) (layer : Layer) (gdf_dict : GdfDict L)
    (gps_radius_m : ℝ) (n_samples : ℕ) (p_thresh : ℚ) (rng : Rng)
    (label_orig : L) (dist_orig : ℚ) (samples : List Pt)
    (hcrs : _check_crs (gdf_dict layer) = .ok ())
    (hcol : (gdf_dict layer).hasIdCol = true)
    (horig : exact_lookup_pure (x_m, y_m) (gdf_dict layer) =
      (some label_orig, some dist_orig))
    (hs : samples = (sample_disk x_m y_m gps_radius_m n_samples rng).1)
    (hne : tallyPure layer gdf_dict samples ≠ []) :
    ∃ top_label top_count,
      top_count = maxCount (tallyPure layer gdf_dict samples) ∧
      top_count = (labelsOf layer gdf_dict samples).count top_label ∧
      sumCounts (tallyPure layer gdf_dict samples) =
        (samples.filter fun pt =>
          ((exact_lookup_pure pt (gdf_dict layer)).1).isSome).length ∧
      ∃ o, boundarysafe_lookup numpy x_m y_m layer gdf_dict gps_radius_m
            n_samples p_thresh (some rng) = .ok o ∧
        o.label_id = some top_label ∧
        o.confidence = pyRound ((top_count : ℚ) /
          (sumCounts (tallyPure layer gdf_dict samples) : ℚ)) 4 ∧
        o.status = (if p_thresh ≤ (top_count : ℚ) /
            (sumCounts (tallyPure layer gdf_dict samples) : ℚ)
          then "answer" else "abstain") := by
  obtain ⟨top, mc_rest, h1, h2, h3⟩ :=
    mostCommon_head_firstMax (tallyPure layer gdf_dict samples) hne
  have htc := tallyPure_eq_counterFold layer gdf_dict samples
  refine ⟨top.1, top.2, h2, ?_, ?_, ?_⟩
  · have hmem : top ∈ tallyPure layer gdf_dict samples :=
      List.mem_of_find?_eq_some h3
    rw [htc] at hmem
    have hnd := keys_nodup_counterFold (labelsOf layer gdf_dict samples)
    have hcv := mem_countVal _ top.1 top.2 hmem hnd
    rw [← hcv, countVal_counterFold]
  · rw [htc, sumCounts_counterFold, labelsOf_length]
  · exact ⟨_, lookup_decision_case numpy x_m y_m layer gdf_dict gps_radius_m
      n_samples p_thresh rng label_orig (some dist_orig) samples top.1 top.2
      mc_rest hcrs hcol horig hs h1, rfl, rfl, rfl⟩

/-- Witness for C1: a single-polygon layer resolving everything, one
sample, threshold 0.9; the decision-stage properties hold concretely. -/
theorem decision_stage_spec_witness :
    _check_crs (constGdf Layer.county) = .ok () ∧
    exact_lookup_pure ((0 : ℝ), (0 : ℝ)) (constGdf Layer.county) =
      (some 10, some (1 / 1000)) ∧
    tallyPure Layer.county constGdf ((sample_disk 0 0 20 1 zeroRng).1) ≠ [] ∧
    (∃ top_label top_count,
      top_count =
        maxCount (tallyPure Layer.county constGdf
          ((sample_disk 0 0 20 1 zeroRng).1)) ∧
      top_count = (labelsOf Layer.county constGdf
          ((sample_disk 0 0 20 1 zeroRng).1)).count top_label ∧
      sumCounts (tallyPure Layer.county constGdf
          ((sample_disk 0 0 20 1 zeroRng).1)) =
        (((sample_disk 0 0 20 1 zeroRng).1).filter fun pt =>
          ((exact_lookup_pure pt (constGdf Layer.county)).1).isSome).length ∧
      ∃ o, boundarysafe_lookup (fun _ _ => 0) 0 0 Layer.county constGdf 20
            1 (9 / 10) (some zeroRng) = .ok o ∧
        o.label_id = some top_label ∧
        o.confidence = pyRound ((top_count : ℚ) /
          (sumCounts (tallyPure Layer.county constGdf
            ((sample_disk 0 0 20 1 zeroRng).1)) : ℚ)) 4 ∧
        o.status = (if (9 / 10 : ℚ) ≤ (top_count : ℚ) /
            (sumCounts (tallyPure Layer.county constGdf
              ((sample_disk 0 0 20 1 zeroRng).1)) : ℚ)
          then "answer" else "abstain")) :=
  ⟨rfl, rfl, fun h => List.noConfusion h,
    decision_stage_spec (fun _ _ => 0) 0 0 Layer.county constGdf 20 1
      (9 / 10) zeroRng 10 (1 / 1000) ((sample_disk 0 0 20 1 zeroRng).1)
      rfl rfl rfl rfl (fun h => List.noConfusion h)⟩

/-! ## Fixtures whose lookups depend on the point's position -/

/-- A second polygon with a different identifier. -/
def poly20 : Poly ℕ :=
  { label := 20, covers := fun _ => true, contains := fun _ => true,
    distToBoundary := fun _ => 1 / 1000 }

/-- Layer covering only the half-plane x < 1: the origin resolves, any
point with x at least 1 is a coverage gap. -/
noncomputable def gapLayer : GeoLayer ℕ :=
  { crs := some 2163, hasIdCol := true, polys := [constPoly],
    sindex := fun p => if p.1 < 1 then [0] else [] }

/-- Dictionary serving `gapLayer` for every layer name. -/
noncomputable def gapGdf : GdfDict ℕ := fun _ => gapLayer

/-- Layer resolving x < 1 to label 10 and x at least 1 to label 20. -/
noncomputable def splitLayer : GeoLayer ℕ :=
  { crs := some 2163, hasIdCol := true, polys := [constPoly, poly20],
    sindex := fun p => if p.1 < 1 then [0] else [1] }

/-- Dictionary serving `splitLayer` for every layer name. -/
noncomputable def splitGdf : GdfDict ℕ := fun _ => splitLayer

/-- Stream sending the single sample of a radius-4 draw to the point
(2, 0): angle draw 0, radius draw 1/4. -/
noncomputable def gapRng : Rng := ⟨fun i => if i = 0 then 0 else 1 / 4, 0⟩

/-- Stream sending two radius-4 samples to (2, 0) and (-2, 0): angle draws
0 and 1/2, radius draws 1/4. -/
noncomputable def tieRng : Rng :=
  ⟨fun i => if i = 0 then 0 else if i = 1 then 1 / 2 else 1 / 4, 0⟩

lemma sqrt_quarter : Real.sqrt (1 / 4) = 1 / 2 := by
  rw [show (1 / 4 : ℝ) = (1 / 2) ^ 2 by norm_num,
    Real.sqrt_sq (by norm_num : (0 : ℝ) ≤ 1 / 2)]

lemma sqrt_four : Real.sqrt 4 = 2 := by
  rw [show (4 : ℝ) = 2 ^ 2 by norm_num,
    Real.sqrt_sq (by norm_num : (0 : ℝ) ≤ 2)]

lemma gap_sample_eval : (sample_disk 0 0 4 1 gapRng).1 = [((2 : ℝ), 0)] := by
  unfold sample_disk Rng.uniform gapRng
  dsimp only
  norm_num [List.range_succ, sqrt_quarter, sqrt_four]

lemma tie_sample_eval :
    (sample_disk 0 0 4 2 tieRng).1 = [((2 : ℝ), 0), ((-2 : ℝ), 0)] := by
  unfold sample_disk Rng.uniform tieRng
  dsimp only
  have hpi : (2 : ℝ) * Real.pi * (1 / 2) = Real.pi := by ring
  norm_num [List.range_succ, sqrt_quarter, sqrt_four, hpi, Real.cos_pi,
    Real.sin_pi]

lemma gap_lookup_origin :
    exact_lookup_pure ((0 : ℝ), (0 : ℝ)) gapLayer = (some 10, some (1 / 1000)) := by
  unfold exact_lookup_pure gapLayer
  dsimp only
  rw [if_pos (by norm_num : (0 : ℝ) < 1)]
  rfl

lemma gap_lookup_sample :
    exact_lookup_pure ((2 : ℝ), (0 : ℝ)) gapLayer = (none, none) := by
  unfold exact_lookup_pure gapLayer
  dsimp only
  rw [if_neg (by norm_num : ¬(2 : ℝ) < 1)]
  rfl

lemma gap_tally_empty :
    tallyPure Layer.county gapGdf [((2 : ℝ), (0 : ℝ))] = [] := by
  unfold tallyPure tallyStep gapGdf
  rw [List.foldl_cons, gap_lookup_sample]
  rfl

lemma split_lookup_left :
    exact_lookup_pure ((-2 : ℝ), (0 : ℝ)) splitLayer = (some 10, some (1 / 1000)) := by
  unfold exact_lookup_pure splitLayer
  dsimp only
  rw [if_pos (by norm_num : (-2 : ℝ) < 1)]
  rfl

lemma split_lookup_right :
    exact_lookup_pure ((2 : ℝ), (0 : ℝ)) splitLayer = (some 20, some (1 / 1000)) := by
  unfold exact_lookup_pure splitLayer
  dsimp only
  rw [if_neg (by norm_num : ¬(2 : ℝ) < 1)]
  rfl

lemma split_lookup_origin :
    exact_lookup_pure ((0 : ℝ), (0 : ℝ)) splitLayer = (some 10, some (1 / 1000)) := by
  unfold exact_lookup_pure splitLayer
  dsimp only
  rw [if_pos (by norm_num : (0 : ℝ) < 1)]
  rfl

lemma split_tally_tie :
    tallyPure Layer.county splitGdf [((2 : ℝ), (0 : ℝ)), ((-2 : ℝ), (0 : ℝ))] =
      [(20, 1), (10, 1)] := by
  unfold tallyPure tallyStep splitGdf
  rw [List.foldl_cons, split_lookup_right, List.foldl_cons, split_lookup_left]
  rfl

/-- C6: when the original point resolves but every perturbed sample is
absent (empty tally), the lookup short-circuits to status answer with
confidence 1.0, the original exact label and (unrounded) distance, and the
single-element candidate list [(label, 1.0)]. -/
theorem empty_tally_short_circuit {L : Type} [DecidableEq L]
    (numpy : ℕ → ℕ → ℝ) (x_m y_m : ℝ) (layer : Layer) (gdf_dict : GdfDict L)
    (gps_radius_m : ℝ) (n_samples : ℕ) (p_thresh : ℚ) (rng : Rng)
    (label_orig : L) (dist_orig : ℚ) (samples : List Pt)
    (hcrs : _check_crs (gdf_dict layer) = .ok ())
    (hcol : (gdf_dict layer).hasIdCol = true)
    (horig : exact_lookup_pure (x_m, y_m) (gdf_dict layer) =
      (some label_orig, some dist_orig))
    (hs : samples = (sample_disk x_m y_m gps_radius_m n_samples rng).1)
    (hcnt : tallyPure layer gdf_dict samples = []) :
    boundarysafe_lookup numpy x_m y_m layer gdf_dict gps_radius_m n_samples
        p_thresh (some rng) =
      .ok { label_id := some label_orig, confidence := 1,
            dist_to_boundary_m := some dist_orig, status := "answer",
            candidates := [(label_orig, 1)] } :=
  lookup_empty_case numpy x_m y_m layer gdf_dict gps_radius_m n_samples
    p_thresh rng label_orig (some dist_orig) samples hcrs hcol horig hs hcnt

/-- Witness for C6: origin inside coverage, the unique jittered sample in
the coverage gap. -/
theorem empty_tally_short_circuit_witness :
    _check_crs (gapGdf Layer.county) = .ok () ∧
    exact_lookup_pure ((0 : ℝ), (0 : ℝ)) (gapGdf Layer.county) =
      (some 10, some (1 / 1000)) ∧
    tallyPure Layer.county gapGdf ((sample_disk 0 0 4 1 gapRng).1) = [] ∧
    boundarysafe_lookup (fun _ _ => 0) 0 0 Layer.county gapGdf 4 1 (9 / 10)
        (some gapRng) =
      .ok { label_id := some 10, confidence := 1,
            dist_to_boundary_m := some (1 / 1000), status := "answer",
            candidates := [(10, 1)] } :=
  ⟨rfl, gap_lookup_origin,
    by rw [gap_sample_eval]; exact gap_tally_empty,
    empty_tally_short_circuit (fun _ _ => 0) 0 0 Layer.county gapGdf 4 1
      (9 / 10) gapRng 10 (1 / 1000) ((sample_disk 0 0 4 1 gapRng).1)
      rfl rfl gap_lookup_origin rfl
      (by rw [gap_sample_eval]; exact gap_tally_empty)⟩

/-- C7 counterexample: an answer-status Outcome produced by the empty-tally
short-circuit reports the original distance 1/1000 unrounded, and that
value differs from the same distance rounded to two decimals, so not every
answer/abstain Outcome carries a rounded distance. -/
theorem short_circuit_distance_not_rounded :
    boundarysafe_lookup (fun _ _ => 0) 0 0 Layer.county gapGdf 4 1 (9 / 10)
        (some gapRng) =
      .ok { label_id := some 10, confidence := 1,
            dist_to_boundary_m := some (1 / 1000), status := "answer",
            candidates := [(10, 1)] } ∧
    exact_lookup_pure ((0 : ℝ), (0 : ℝ)) (gapGdf Layer.county) =
      (some 10, some (1 / 1000)) ∧
    some ((1 : ℚ) / 1000) ≠ some (pyRound (1 / 1000) 2) :=
  ⟨lookup_empty_case (fun _ _ => 0) 0 0 Layer.county gapGdf 4 1 (9 / 10)
      gapRng 10 (some (1 / 1000)) ((sample_disk 0 0 4 1 gapRng).1)
      rfl rfl gap_lookup_origin rfl
      (by rw [gap_sample_eval]; exact gap_tally_empty),
    gap_lookup_origin, by norm_num [pyRound, roundHalfEven]⟩

/-- C7 (amended): for answer/abstain Outcomes the reported distance is the
original exact point's distance, never a resampled one: rounded to two
decimals by the decision stage, but returned unrounded by the empty-tally
short-circuit. -/
theorem reported_distance_is_original {L : Type} [DecidableEq L]
    (numpy : ℕ → ℕ → ℝ) (x_m y_m : ℝ) (layer : Layer) (gdf_dict : GdfDict L)
    (gps_radius_m : ℝ) (n_samples : ℕ) (p_thresh : ℚ) (rng : Rng)
    (label_orig : L) (dist_orig : ℚ) (samples : List Pt)
    (hcrs : _check_crs (gdf_dict layer) = .ok ())
    (hcol : (gdf_dict layer).hasIdCol = true)
    (horig : exact_lookup_pure (x_m, y_m) (gdf_dict layer) =
      (some label_orig, some dist_orig))
    (hs : samples = (sample_disk x_m y_m gps_radius_m n_samples rng).1) :
    (tallyPure layer gdf_dict samples = [] →
      ∃ o, boundarysafe_lookup numpy x_m y_m layer gdf_dict gps_radius_m
            n_samples p_thresh (some rng) = .ok o ∧
        o.status = "answer" ∧ o.dist_to_boundary_m = some dist_orig) ∧
    (tallyPure layer gdf_dict samples ≠ [] →
      ∃ o, boundarysafe_lookup numpy x_m y_m layer gdf_dict gps_radius_m
            n_samples p_thresh (some rng) = .ok o ∧
        (o.status = "answer" ∨ o.status = "abstain") ∧
        o.dist_to_boundary_m = some (pyRound dist_orig 2)) := by
  constructor
  · intro hcnt
    exact ⟨_, lookup_empty_case numpy x_m y_m layer gdf_dict gps_radius_m
      n_samples p_thresh rng label_orig (some dist_orig) samples hcrs hcol
      horig hs hcnt, rfl, rfl⟩
  · intro hne
    obtain ⟨top, mc_rest, h1, _, _⟩ := mostCommon_head_firstMax _ hne
    refine ⟨_, lookup_decision_case numpy x_m y_m layer gdf_dict gps_radius_m
      n_samples p_thresh rng label_orig (some dist_orig) samples top.1 top.2
      mc_rest hcrs hcol horig hs h1, ?_, rfl⟩
    dsimp only
    by_cases hp : p_thresh ≤ (top.2 : ℚ) /
        (sumCounts (tallyPure layer gdf_dict samples) : ℚ)
    · exact Or.inl (if_pos hp)
    · exact Or.inr (if_neg hp)

/-- Witness for the amended C7 at a decision-stage configuration. -/
theorem reported_distance_is_original_witness :
    _check_crs (constGdf Layer.county) = .ok () ∧
    exact_lookup_pure ((0 : ℝ), (0 : ℝ)) (constGdf Layer.county) =
      (some 10, some (1 / 1000)) ∧
    ((tallyPure Layer.county constGdf ((sample_disk 0 0 20 1 zeroRng).1) = [] →
      ∃ o, boundarysafe_lookup (fun _ _ => 0) 0 0 Layer.county constGdf 20 1
            (9 / 10) (some zeroRng) = .ok o ∧
        o.status = "answer" ∧ o.dist_to_boundary_m = some (1 / 1000)) ∧
    (tallyPure Layer.county constGdf ((sample_disk 0 0 20 1 zeroRng).1) ≠ [] →
      ∃ o, boundarysafe_lookup (fun _ _ => 0) 0 0 Layer.county constGdf 20 1
            (9 / 10) (some zeroRng) = .ok o ∧
        (o.status = "answer" ∨ o.status = "abstain") ∧
        o.dist_to_boundary_m = some (pyRound (1 / 1000) 2))) :=
  ⟨rfl, rfl,
    reported_distance_is_original (fun _ _ => 0) 0 0 Layer.county constGdf
      20 1 (9 / 10) zeroRng 10 (1 / 1000)
      ((sample_disk 0 0 20 1 zeroRng).1) rfl rfl rfl rfl⟩

/-- C8: the reported most-frequent label is picked deterministically by
first-seen order over the sample sequence: the tally is the
insertion-ordered fold of the non-absent label sequence, its key order is
first-seen order, and the returned label heads the first tally entry
attaining the maximal count. -/
theorem tie_break_first_seen {L : Type} [DecidableEq L]
    (numpy : ℕ → ℕ → ℝ) (x_m y_m : ℝ) (layer : Layer) (gdf_dict : GdfDict L)
    (gps_radius_m : ℝ) (n_samples : ℕ) (p_thresh : ℚ) (rng : Rng)
    (label_orig : L) (dist_orig : ℚ) (samples : List Pt)
    (hcrs : _check_crs (gdf_dict layer) = .ok ())
    (hcol : (gdf_dict layer).hasIdCol = true)
    (horig : exact_lookup_pure (x_m, y_m) (gdf_dict layer) =
      (some label_orig, some dist_orig))
    (hs : samples = (sample_disk x_m y_m gps_radius_m n_samples rng).1)
    (hne : tallyPure layer gdf_dict samples ≠ []) :
    ∃ top,
      (tallyPure layer gdf_dict samples).find?
        (fun z => z.2 = maxCount (tallyPure layer gdf_dict samples)) =
          some top ∧
      tallyPure layer gdf_dict samples =
        counterFold (labelsOf layer gdf_dict samples) ∧
      (tallyPure layer gdf_dict samples).map Prod.fst =
        firstSeen (labelsOf layer gdf_dict samples) ∧
      ∃ o, boundarysafe_lookup numpy x_m y_m layer gdf_dict gps_radius_m
            n_samples p_thresh (some rng) = .ok o ∧
        o.label_id = some top.1 := by
  obtain ⟨top, mc_rest, h1, h2, h3⟩ := mostCommon_head_firstMax _ hne
  refine ⟨top, h3, tallyPure_eq_counterFold layer gdf_dict samples, ?_, ?_⟩
  · rw [tallyPure_eq_counterFold, keys_counterFold]
  · exact ⟨_, lookup_decision_case numpy x_m y_m layer gdf_dict gps_radius_m
      n_samples p_thresh rng label_orig (some dist_orig) samples top.1 top.2
      mc_rest hcrs hcol horig hs h1, rfl⟩

/-- Witness for C8 at a genuine tie: labels 20 and 10 each tally one of two
samples; the first-seen label 20 is reported. -/
theorem tie_break_first_seen_witness :
    tallyPure Layer.county splitGdf ((sample_disk 0 0 4 2 tieRng).1) =
      [(20, 1), (10, 1)] ∧
    (∃ top,
      (tallyPure Layer.county splitGdf
          ((sample_disk 0 0 4 2 tieRng).1)).find?
        (fun z => z.2 = maxCount (tallyPure Layer.county splitGdf
          ((sample_disk 0 0 4 2 tieRng).1))) = some top ∧
      tallyPure Layer.county splitGdf ((sample_disk 0 0 4 2 tieRng).1) =
        counterFold (labelsOf Layer.county splitGdf
          ((sample_disk 0 0 4 2 tieRng).1)) ∧
      (tallyPure Layer.county splitGdf
          ((sample_disk 0 0 4 2 tieRng).1)).map Prod.fst =
        firstSeen (labelsOf Layer.county splitGdf
          ((sample_disk 0 0 4 2 tieRng).1)) ∧
      ∃ o, boundarysafe_lookup (fun _ _ => 0) 0 0 Layer.county splitGdf 4 2
            (9 / 10) (some tieRng) = .ok o ∧
        o.label_id = some top.1) :=
  ⟨by rw [tie_sample_eval]; exact split_tally_tie,
    tie_break_first_seen (fun _ _ => 0) 0 0 Layer.county splitGdf 4 2
      (9 / 10) tieRng 10 (1 / 1000) ((sample_disk 0 0 4 2 tieRng).1)
      rfl rfl split_lookup_origin rfl
      (by rw [tie_sample_eval, split_tally_tie]; exact fun h =>
        List.noConfusion h)⟩

/-- C9: with everything fixed except the threshold, raising the threshold
never turns an abstain Outcome into answer and never changes the reported
label or confidence. -/
theorem threshold_monotone {L : Type} [DecidableEq L]
    (numpy : ℕ → ℕ → ℝ) (x_m y_m : ℝ) (layer : Layer) (gdf_dict : GdfDict L)
    (gps_radius_m : ℝ) (n_samples : ℕ) (p₁ p₂ : ℚ) (rng : Rng)
    (o₁ o₂ : Outcome L)
    (hcrs : _check_crs (gdf_dict layer) = .ok ())
    (hcol : (gdf_dict layer).hasIdCol = true)
    (hpp : p₁ ≤ p₂)
    (h₁ : boundarysafe_lookup numpy x_m y_m layer gdf_dict gps_radius_m
      n_samples p₁ (some rng) = .ok o₁)
    (h₂ : boundarysafe_lookup numpy x_m y_m layer gdf_dict gps_radius_m
      n_samples p₂ (some rng) = .ok o₂) :
    (o₁.status = "abstain" → o₂.status = "abstain") ∧
    o₁.label_id = o₂.label_id ∧ o₁.confidence = o₂.confidence := by
  rcases exact_lookup_pure_cases (x_m, y_m) (gdf_dict layer) with hres | ⟨m, hres⟩
  · rw [lookup_error_case numpy x_m y_m layer gdf_dict gps_radius_m n_samples
      p₁ (some rng) hcrs hcol (by rw [hres])] at h₁
    rw [lookup_error_case numpy x_m y_m layer gdf_dict gps_radius_m n_samples
      p₂ (some rng) hcrs hcol (by rw [hres])] at h₂
    injection h₁ with h₁
    injection h₂ with h₂
    subst h₁
    subst h₂
    refine ⟨?_, rfl, rfl⟩
    intro habs
    dsimp only at habs
    exact absurd habs (by decide)
  · by_cases hcnt : tallyPure layer gdf_dict
        ((sample_disk x_m y_m gps_radius_m n_samples rng).1) = []
    · rw [lookup_empty_case numpy x_m y_m layer gdf_dict gps_radius_m
        n_samples p₁ rng m.label (some (m.distToBoundary (x_m, y_m)))
        ((sample_disk x_m y_m gps_radius_m n_samples rng).1)
        hcrs hcol hres rfl hcnt] at h₁
      rw [lookup_empty_case numpy x_m y_m layer gdf_dict gps_radius_m
        n_samples p₂ rng m.label (some (m.distToBoundary (x_m, y_m)))
        ((sample_disk x_m y_m gps_radius_m n_samples rng).1)
        hcrs hcol hres rfl hcnt] at h₂
      injection h₁ with h₁
      injection h₂ with h₂
      subst h₁
      subst h₂
      refine ⟨?_, rfl, rfl⟩
      intro habs
      dsimp only at habs
      exact absurd habs (by decide)
    · obtain ⟨top, mc_rest, hmc, _, _⟩ := mostCommon_head_firstMax _ hcnt
      rw [lookup_decision_case numpy x_m y_m layer gdf_dict gps_radius_m
        n_samples p₁ rng m.label (some (m.distToBoundary (x_m, y_m)))
        ((sample_disk x_m y_m gps_radius_m n_samples rng).1) top.1 top.2
        mc_rest hcrs hcol hres rfl hmc] at h₁
      rw [lookup_decision_case numpy x_m y_m layer gdf_dict gps_radius_m
        n_samples p₂ rng m.label (some (m.distToBoundary (x_m, y_m)))
        ((sample_disk x_m y_m gps_radius_m n_samples rng).1) top.1 top.2
        mc_rest hcrs hcol hres rfl hmc] at h₂
      injection h₁ with h₁
      injection h₂ with h₂
      subst h₁
      subst h₂
      refine ⟨?_, rfl, rfl⟩
      intro habs
      dsimp only at habs ⊢
      by_cases hq1 : p₁ ≤ (top.2 : ℚ) / (sumCounts (tallyPure layer gdf_dict
          ((sample_disk x_m y_m gps_radius_m n_samples rng).1)) : ℚ)
      · rw [if_pos hq1] at habs
        exact absurd habs (by decide)
      · have hq2 : ¬p₂ ≤ (top.2 : ℚ) / (sumCounts (tallyPure layer gdf_dict
            ((sample_disk x_m y_m gps_radius_m n_samples rng).1)) : ℚ) :=
          fun h => hq1 (le_trans hpp h)
        rw [if_neg hq2]

/-- The answer Outcome produced on the always-resolving fixture. -/
def constOutcome : Outcome ℕ :=
  { label_id := some 10, confidence := 1, dist_to_boundary_m := some 0,
    status := "answer", candidates := [(10, 1)] }

/-- Full evaluation of the lookup on the always-resolving fixture: one
sample, tally [(10, 1)], p_top = 1, so any threshold at most 1 answers. -/
lemma const_lookup_eval (p_thresh : ℚ) (hp : p_thresh ≤ 1) :
    boundarysafe_lookup (fun _ _ => 0) 0 0 Layer.county constGdf 20 1
        p_thresh (some zeroRng) = .ok constOutcome := by
  rw [lookup_decision_case (fun _ _ => 0) 0 0 Layer.county constGdf 20 1
    p_thresh zeroRng 10 (some (1 / 1000)) ((sample_disk 0 0 20 1 zeroRng).1)
    10 1 [] rfl rfl rfl rfl rfl]
  have h1 : tallyPure Layer.county constGdf
      ((sample_disk 0 0 20 1 zeroRng).1) = [(10, 1)] := rfl
  rw [h1]
  have h2 : most_common [((10 : ℕ), 1)] = [(10, 1)] := rfl
  have h3 : sumCounts [((10 : ℕ), 1)] = 1 := rfl
  rw [h2, h3]
  unfold constOutcome
  have hf : Int.fract ((1 : ℚ) / 10) = 1 / 10 := by
    unfold Int.fract
    norm_num
  norm_num [pyRound, roundHalfEven, hp, hf]

/-- Witness for C9: thresholds 1/2 and 9/10 on the always-resolving fixture
give the same answer Outcome, with label and confidence unchanged. -/
theorem threshold_monotone_witness :
    ((1 : ℚ) / 2 ≤ 9 / 10) ∧
    boundarysafe_lookup (fun _ _ => 0) 0 0 Layer.county constGdf 20 1 (1 / 2)
        (some zeroRng) = .ok constOutcome ∧
    boundarysafe_lookup (fun _ _ => 0) 0 0 Layer.county constGdf 20 1 (9 / 10)
        (some zeroRng) = .ok constOutcome ∧
    ((constOutcome.status = "abstain" → constOutcome.status = "abstain") ∧
      constOutcome.label_id = constOutcome.label_id ∧
      constOutcome.confidence = constOutcome.confidence) :=
  ⟨by norm_num, const_lookup_eval (1 / 2) (by norm_num),
    const_lookup_eval (9 / 10) (by norm_num),
    threshold_monotone (fun _ _ => 0) 0 0 Layer.county constGdf 20 1 (1 / 2)
      (9 / 10) zeroRng _ _ rfl rfl (by norm_num)
      (const_lookup_eval (1 / 2) (by norm_num))
      (const_lookup_eval (9 / 10) (by norm_num))⟩

/-! ## Resolver branch lemmas for C5 -/

section ResolverLemmas

variable {L : Type}

lemma elp_covers (point : Pt) (g : GeoLayer L) (m : Poly L) (rest : List (Poly L))
    (hcm : ((g.sindex point).filterMap (fun i => g.polys.get? i)).filter
      (fun poly => poly.covers point) = m :: rest) :
    exact_lookup_pure point g = (some m.label, some (m.distToBoundary point)) := by
  have hcond : ¬((g.sindex point).isEmpty = true) := by
    cases hs : g.sindex point with
    | nil =>
        rw [hs] at hcm
        simp at hcm
    | cons a as => simp
  unfold exact_lookup_pure
  dsimp only
  rw [if_neg hcond, hcm]
  rfl

lemma elp_contains (point : Pt) (g : GeoLayer L) (m : Poly L) (rest : List (Poly L))
    (hcm : ((g.sindex point).filterMap (fun i => g.polys.get? i)).filter
      (fun poly => poly.covers point) = [])
    (hkm : ((g.sindex point).filterMap (fun i => g.polys.get? i)).filter
      (fun poly => poly.contains point) = m :: rest) :
    exact_lookup_pure point g = (some m.label, some (m.distToBoundary point)) := by
  have hcond : ¬((g.sindex point).isEmpty = true) := by
    cases hs : g.sindex point with
    | nil =>
        rw [hs] at hkm
        simp at hkm
    | cons a as => simp
  unfold exact_lookup_pure
  dsimp only
  rw [if_neg hcond, hcm, hkm]
  rfl

lemma elp_absent_iff (point : Pt) (g : GeoLayer L) :
    exact_lookup_pure point g = (none, none) ↔
      (g.sindex point = [] ∨
        ∀ poly ∈ (g.sindex point).filterMap (fun i => g.polys.get? i),
          poly.covers point = false ∧ poly.contains point = false) := by
  constructor
  · intro h
    by_cases hidx : g.sindex point = []
    · exact Or.inl hidx
    · refine Or.inr fun poly hpoly => ?_
      constructor
      · by_contra hcov
        have hcov' : poly.covers point = true := by
          cases hc : poly.covers point
          · exact absurd hc hcov
          · rfl
        have hin : poly ∈ ((g.sindex point).filterMap
            (fun i => g.polys.get? i)).filter (fun p' => p'.covers point) :=
          List.mem_filter.mpr ⟨hpoly, hcov'⟩
        obtain ⟨m, rest, hcm⟩ : ∃ m rest,
            ((g.sindex point).filterMap (fun i => g.polys.get? i)).filter
              (fun p' => p'.covers point) = m :: rest := by
          cases hfc : ((g.sindex point).filterMap
              (fun i => g.polys.get? i)).filter (fun p' => p'.covers point) with
          | nil =>
              rw [hfc] at hin
              simp at hin
          | cons a as => exact ⟨a, as, rfl⟩
        rw [elp_covers point g m rest hcm] at h
        simp at h
      · by_contra hcon
        have hcon' : poly.contains point = true := by
          cases hc : poly.contains point
          · exact absurd hc hcon
          · rfl
        cases hfc : ((g.sindex point).filterMap
            (fun i => g.polys.get? i)).filter (fun p' => p'.covers point) with
        | cons a as =>
            rw [elp_covers point g a as hfc] at h
            simp at h
        | nil =>
            have hin : poly ∈ ((g.sindex point).filterMap
                (fun i => g.polys.get? i)).filter (fun p' => p'.contains point) :=
              List.mem_filter.mpr ⟨hpoly, hcon'⟩
            obtain ⟨m, rest, hkm⟩ : ∃ m rest,
                ((g.sindex point).filterMap (fun i => g.polys.get? i)).filter
                  (fun p' => p'.contains point) = m :: rest := by
              cases hfk : ((g.sindex point).filterMap
                  (fun i => g.polys.get? i)).filter
                    (fun p' => p'.contains point) with
              | nil =>
                  rw [hfk] at hin
                  simp at hin
              | cons a as => exact ⟨a, as, rfl⟩
            rw [elp_contains point g m rest hfc hkm] at h
            simp at h
  · intro h
    rcases h with hidx | hall
    · unfold exact_lookup_pure
      dsimp only
      rw [hidx]
      rfl
    · have hcm : ((g.sindex point).filterMap (fun i => g.polys.get? i)).filter
          (fun p' => p'.covers point) = [] := by
        rw [List.filter_eq_nil_iff]
        intro a ha
        simp [(hall a ha).1]
      have hkm : ((g.sindex point).filterMap (fun i => g.polys.get? i)).filter
          (fun p' => p'.contains point) = [] := by
        rw [List.filter_eq_nil_iff]
        intro a ha
        simp [(hall a ha).2]
      unfold exact_lookup_pure
      dsimp only
      by_cases hidx : (g.sindex point).isEmpty = true
      · rw [if_pos hidx]
      · rw [if_neg hidx, hcm, hkm]
        rfl

end ResolverLemmas

/-- C5: the Containment Resolver selects among spatial-index candidates the
polygons passing the boundary-inclusive covers test, falls back to the
boundary-exclusive contains test only when no candidate covers the point,
and returns absent/absent exactly when the candidate set is empty or no
candidate passes either test. -/
theorem covers_priority_and_absent_iff {L : Type}
    (x_m y_m : ℝ) (layer : Layer) (gdf_dict : GdfDict L)
    (hcol : (gdf_dict layer).hasIdCol = true) :
    (∀ m rest,
      (((gdf_dict layer).sindex (x_m, y_m)).filterMap
        (fun i => (gdf_dict layer).polys.get? i)).filter
          (fun poly => poly.covers (x_m, y_m)) = m :: rest →
      m.covers (x_m, y_m) = true ∧
      exact_lookup x_m y_m layer gdf_dict =
        .ok (some m.label, some (m.distToBoundary (x_m, y_m)))) ∧
    ((((gdf_dict layer).sindex (x_m, y_m)).filterMap
        (fun i => (gdf_dict layer).polys.get? i)).filter
          (fun poly => poly.covers (x_m, y_m)) = [] →
      ∀ m rest,
        (((gdf_dict layer).sindex (x_m, y_m)).filterMap
          (fun i => (gdf_dict layer).polys.get? i)).filter
            (fun poly => poly.contains (x_m, y_m)) = m :: rest →
        m.contains (x_m, y_m) = true ∧
        exact_lookup x_m y_m layer gdf_dict =
          .ok (some m.label, some (m.distToBoundary (x_m, y_m)))) ∧
    (exact_lookup x_m y_m layer gdf_dict = .ok (none, none) ↔
      ((gdf_dict layer).sindex (x_m, y_m) = [] ∨
        ∀ poly ∈ ((gdf_dict layer).sindex (x_m, y_m)).filterMap
            (fun i => (gdf_dict layer).polys.get? i),
          poly.covers (x_m, y_m) = false ∧
          poly.contains (x_m, y_m) = false)) := by
  refine ⟨?_, ?_, ?_⟩
  · intro m rest hcm
    have hmem : m ∈ (((gdf_dict layer).sindex (x_m, y_m)).filterMap
        (fun i => (gdf_dict layer).polys.get? i)).filter
          (fun poly => poly.covers (x_m, y_m)) := by
      rw [hcm]
      exact List.mem_cons_self _ _
    refine ⟨(List.mem_filter.mp hmem).2, ?_⟩
    rw [exact_lookup_ok x_m y_m layer gdf_dict hcol,
      elp_covers _ _ m rest hcm]
  · intro hcm m rest hkm
    have hmem : m ∈ (((gdf_dict layer).sindex (x_m, y_m)).filterMap
        (fun i => (gdf_dict layer).polys.get? i)).filter
          (fun poly => poly.contains (x_m, y_m)) := by
      rw [hkm]
      exact List.mem_cons_self _ _
    refine ⟨(List.mem_filter.mp hmem).2, ?_⟩
    rw [exact_lookup_ok x_m y_m layer gdf_dict hcol,
      elp_contains _ _ m rest hcm hkm]
  · constructor
    · intro h
      rw [exact_lookup_ok x_m y_m layer gdf_dict hcol] at h
      exact (elp_absent_iff _ _).mp (Except.ok.inj h)
    · intro h
      rw [exact_lookup_ok x_m y_m layer gdf_dict hcol,
        (elp_absent_iff _ _).mpr h]

/-- A polygon that contains but does not cover: used to show covers takes
priority over it. -/
def polyNC : Poly ℕ :=
  { label := 30, covers := fun _ => false, contains := fun _ => true,
    distToBoundary := fun _ => 2 }

/-- Layer listing the non-covering polygon first: the covering polygon
still wins. -/
def prioLayer : GeoLayer ℕ :=
  { crs := some 2163, hasIdCol := true, polys := [polyNC, constPoly],
    sindex := fun _ => [0, 1] }

/-- Dictionary serving `prioLayer` for every layer name. -/
def prioGdf : GdfDict ℕ := fun _ => prioLayer

/-- Witness for C5: with candidates [polyNC, constPoly] where only the
second covers, the resolver returns the covering polygon's label. -/
theorem covers_priority_and_absent_iff_witness :
    (prioGdf Layer.county).hasIdCol = true ∧
    ((prioGdf Layer.county).sindex ((0 : ℝ), (0 : ℝ))).filterMap
        (fun i => (prioGdf Layer.county).polys.get? i) = [polyNC, constPoly] ∧
    (((prioGdf Layer.county).sindex ((0 : ℝ), (0 : ℝ))).filterMap
        (fun i => (prioGdf Layer.county).polys.get? i)).filter
          (fun poly => poly.covers ((0 : ℝ), (0 : ℝ))) = [constPoly] ∧
    constPoly.covers ((0 : ℝ), (0 : ℝ)) = true ∧
    exact_lookup 0 0 Layer.county prioGdf =
      .ok (some 10, some (1 / 1000)) :=
  ⟨rfl, rfl, rfl,
    ((covers_priority_and_absent_iff 0 0 Layer.county prioGdf rfl).1
      constPoly [] rfl).1,
    ((covers_priority_and_absent_iff 0 0 Layer.county prioGdf rfl).1
      constPoly [] rfl).2⟩

/-- C3: `sample_disk` returns exactly n points; each is constructed as
(x + r sqrt u cos theta, y + r sqrt u sin theta) for a uniform draw u in
[0, 1) and an angle theta in [0, 2 pi), its distance to the center equals
r sqrt u, and so lies within distance r of the center (boundary inclusive). -/
theorem sample_disk_within_radius (x_m y_m radius_m : ℝ) (n : ℕ) (rng : Rng)
    (hr : 0 ≤ radius_m)
    (hstream : ∀ i, 0 ≤ rng.stream i ∧ rng.stream i < 1) :
    (sample_disk x_m y_m radius_m n rng).1.length = n ∧
    ∀ p ∈ (sample_disk x_m y_m radius_m n rng).1,
      ∃ u theta, 0 ≤ u ∧ u < 1 ∧ 0 ≤ theta ∧ theta < 2 * Real.pi ∧
        p = (x_m + radius_m * Real.sqrt u * Real.cos theta,
             y_m + radius_m * Real.sqrt u * Real.sin theta) ∧
        euclidDist p (x_m, y_m) = radius_m * Real.sqrt u ∧
        euclidDist p (x_m, y_m) ≤ radius_m := by
  constructor
  · simp [sample_disk, Rng.uniform]
  · intro p hp
    unfold sample_disk Rng.uniform at hp
    dsimp only at hp
    rw [List.mem_map] at hp
    obtain ⟨rt, hrt, hF⟩ := hp
    obtain ⟨r, θ⟩ := rt
    dsimp only at hF
    obtain ⟨hrmem, hθmem⟩ := List.of_mem_zip hrt
    rw [List.mem_map] at hrmem
    obtain ⟨u0, hu0mem, hu0⟩ := hrmem
    rw [List.mem_map] at hu0mem
    obtain ⟨j, hj, hu0eq⟩ := hu0mem
    rw [List.mem_map] at hθmem
    obtain ⟨i, hi, hθeq⟩ := hθmem
    subst hθeq
    subst hu0eq
    have hsu := hstream (rng.pos + n + j)
    have hsθ := hstream (rng.pos + i)
    have hπ := Real.pi_pos
    have h0u : (0 : ℝ) ≤ 0 + (1 - 0) * rng.stream (rng.pos + n + j) := by
      nlinarith [hsu.1]
    have h1u : 0 + (1 - 0) * rng.stream (rng.pos + n + j) < 1 := by
      nlinarith [hsu.2]
    have h0θ : (0 : ℝ) ≤ 0 + (2 * Real.pi - 0) * rng.stream (rng.pos + i) := by
      nlinarith [hsθ.1]
    have h1θ : 0 + (2 * Real.pi - 0) * rng.stream (rng.pos + i) < 2 * Real.pi := by
      nlinarith [hsθ.2, hsθ.1]
    have hr0 : 0 ≤ r := by
      rw [← hu0]
      exact mul_nonneg hr (Real.sqrt_nonneg _)
    have hdist : euclidDist
        (x_m + r * Real.cos (0 + (2 * Real.pi - 0) * rng.stream (rng.pos + i)),
         y_m + r * Real.sin (0 + (2 * Real.pi - 0) * rng.stream (rng.pos + i)))
        (x_m, y_m) = r := by
      unfold euclidDist
      dsimp only
      have h1 : (x_m + r * Real.cos (0 + (2 * Real.pi - 0) *
            rng.stream (rng.pos + i)) - x_m) ^ 2 +
          (y_m + r * Real.sin (0 + (2 * Real.pi - 0) *
            rng.stream (rng.pos + i)) - y_m) ^ 2 =
          r ^ 2 * (Real.sin (0 + (2 * Real.pi - 0) *
            rng.stream (rng.pos + i)) ^ 2 +
           Real.cos (0 + (2 * Real.pi - 0) *
            rng.stream (rng.pos + i)) ^ 2) := by
        ring
      rw [h1, Real.sin_sq_add_cos_sq, mul_one, Real.sqrt_sq hr0]
    have hle : r ≤ radius_m := by
      rw [← hu0]
      calc radius_m * Real.sqrt (0 + (1 - 0) * rng.stream (rng.pos + n + j)) ≤
          radius_m * 1 :=
            mul_le_mul_of_nonneg_left (Real.sqrt_le_one.mpr (le_of_lt h1u)) hr
        _ = radius_m := mul_one _
    refine ⟨0 + (1 - 0) * rng.stream (rng.pos + n + j),
      0 + (2 * Real.pi - 0) * rng.stream (rng.pos + i),
      h0u, h1u, h0θ, h1θ, ?_, ?_, ?_⟩
    · rw [← hF, hu0]
    · rw [← hF, hu0]
      exact hdist
    · rw [← hF, hdist]
      exact hle

/-- Generator whose stream is 0 on the first four draws, 1/2 afterwards:
agrees with `zeroRng` exactly on the window a two-sample draw consumes. -/
noncomputable def windowRng : Rng := ⟨fun i => if i < 4 then 0 else 1 / 2, 0⟩

/-- Witness for C3: the constant-1/2 generator, radius 1, three samples. -/
theorem sample_disk_within_radius_witness :
    ((0 : ℝ) ≤ 1) ∧ (∀ i, 0 ≤ halfRng.stream i ∧ halfRng.stream i < 1) ∧
    ((sample_disk 0 0 1 3 halfRng).1.length = 3 ∧
    ∀ p ∈ (sample_disk 0 0 1 3 halfRng).1,
      ∃ u theta, 0 ≤ u ∧ u < 1 ∧ 0 ≤ theta ∧ theta < 2 * Real.pi ∧
        p = (0 + 1 * Real.sqrt u * Real.cos theta,
             0 + 1 * Real.sqrt u * Real.sin theta) ∧
        euclidDist p (0, 0) = 1 * Real.sqrt u ∧
        euclidDist p (0, 0) ≤ 1) :=
  ⟨by norm_num,
    fun i => ⟨by norm_num [halfRng], by norm_num [halfRng]⟩,
    sample_disk_within_radius 0 0 1 3 halfRng (by norm_num)
      (fun i => ⟨by norm_num [halfRng], by norm_num [halfRng]⟩)⟩

/-- C4: the sampler consumes exactly the next 2n draws of the stream, so
two generators with equal cursors whose streams agree on those draws
produce bit-identical sample sequences, and the lookup outcome computed
from them is identical. -/
theorem determinism_same_stream {L : Type} [DecidableEq L]
    (numpy : ℕ → ℕ → ℝ) (x_m y_m : ℝ) (layer : Layer) (gdf_dict : GdfDict L)
    (gps_radius_m : ℝ) (n_samples : ℕ) (p_thresh : ℚ) (rng₁ rng₂ : Rng)
    (_hpos : rng₁.pos = rng₂.pos)
    (hagree : ∀ i < 2 * n_samples,
      rng₁.stream (rng₁.pos + i) = rng₂.stream (rng₂.pos + i)) :
    (sample_disk x_m y_m gps_radius_m n_samples rng₁).1 =
      (sample_disk x_m y_m gps_radius_m n_samples rng₂).1 ∧
    boundarysafe_lookup numpy x_m y_m layer gdf_dict gps_radius_m n_samples
        p_thresh (some rng₁) =
      boundarysafe_lookup numpy x_m y_m layer gdf_dict gps_radius_m n_samples
        p_thresh (some rng₂) := by
  have hsamp : (sample_disk x_m y_m gps_radius_m n_samples rng₁).1 =
      (sample_disk x_m y_m gps_radius_m n_samples rng₂).1 := by
    unfold sample_disk Rng.uniform
    dsimp only
    have hθ : (List.range n_samples).map (fun i =>
        (0 : ℝ) + (2 * Real.pi - 0) * rng₁.stream (rng₁.pos + i)) =
      (List.range n_samples).map (fun i =>
        (0 : ℝ) + (2 * Real.pi - 0) * rng₂.stream (rng₂.pos + i)) := by
      apply List.map_congr_left
      intro i hi
      rw [List.mem_range] at hi
      rw [hagree i (by omega)]
    have hu : (List.range n_samples).map (fun i =>
        (0 : ℝ) + (1 - 0) * rng₁.stream (rng₁.pos + n_samples + i)) =
      (List.range n_samples).map (fun i =>
        (0 : ℝ) + (1 - 0) * rng₂.stream (rng₂.pos + n_samples + i)) := by
      apply List.map_congr_left
      intro i hi
      rw [List.mem_range] at hi
      rw [Nat.add_assoc, hagree (n_samples + i) (by omega), Nat.add_assoc]
    rw [hθ, hu]
  refine ⟨hsamp, ?_⟩
  unfold boundarysafe_lookup
  dsimp only
  rw [hsamp]

/-- Witness for C4: `zeroRng` and `windowRng` agree on the four draws a
two-sample run consumes, so samples and outcome coincide. -/
theorem determinism_same_stream_witness :
    zeroRng.pos = windowRng.pos ∧
    (∀ i < 2 * 2, zeroRng.stream (zeroRng.pos + i) =
      windowRng.stream (windowRng.pos + i)) ∧
    ((sample_disk 0 0 20 2 zeroRng).1 = (sample_disk 0 0 20 2 windowRng).1 ∧
    boundarysafe_lookup (fun _ _ => 0) 0 0 Layer.county constGdf 20 2 (9 / 10)
        (some zeroRng) =
      boundarysafe_lookup (fun _ _ => 0) 0 0 Layer.county constGdf 20 2 (9 / 10)
        (some windowRng)) :=
  ⟨rfl,
    fun i hi => by
      simp only [zeroRng, windowRng]
      rw [if_pos (by omega)],
    determinism_same_stream (fun _ _ => 0) 0 0 Layer.county constGdf 20 2
      (9 / 10) zeroRng windowRng rfl
      (fun i hi => by
        simp only [zeroRng, windowRng]
        rw [if_pos (by omega)])⟩

end BoundarySafe
